import Mathlib

/-!
Shallow embedding of the ITVE user-registration backend (src/main.py).

The service stores heterogeneous role documents in a single MongoDB
collection.  We model BSON documents as association lists, the collection
as a list of documents plus an id counter, and each FastAPI endpoint as a
pure function from a store and a payload to a result, the updated store,
and a trace of the store operations it performed (in order).

External collaborators are parameters:
  * `emailValid` stands for the `EmailStr` check done by the
    email-validator library inside pydantic;
  * `hashPw` stands for `hash_password` as used by the handlers (its
    bcrypt step draws a fresh salt per call, so the handlers are
    parameterized by the concrete string-to-string function a given call
    evaluates to).  `hash_password` itself is embedded below with a real
    SHA-256 and an abstract bcrypt.
-/

set_option maxRecDepth 100000

namespace ITVE

/-- A BSON value as this service stores them: strings, booleans, null
(Python `None` is sent as BSON null), and ObjectIds (modelled as the
insertion counter). -/
inductive Value where
  | str (s : String)
  | boolean (b : Bool)
  | vnull
  | objectId (n : Nat)
deriving DecidableEq, Repr

/-- A MongoDB document: an association list from field names to values
(insertion order kept, first binding wins on lookup). -/
abbrev Doc := List (String × Value)

/-- Field lookup in a document. -/
def Doc.get (d : Doc) (k : String) : Option Value :=
  match d with
  | [] => none
  | (k', v) :: rest => if k' = k then some v else Doc.get rest k

/-- MongoDB equality-match semantics for a single query pair.  Crucially, a
query value of null matches documents where the field is null OR where the
field is missing entirely (documented MongoDB behaviour for
`find_one({field: None})`). -/
def matchesPair (d : Doc) (k : String) (v : Value) : Bool :=
  match v with
  | Value.vnull => (d.get k).isNone || decide (d.get k = some Value.vnull)
  | _ => decide (d.get k = some v)

/-- A document matches a query when it matches every pair (the empty query
matches everything). -/
def matchesQuery (d : Doc) (q : List (String × Value)) : Bool :=
  q.all (fun kv => matchesPair d kv.1 kv.2)

/-- MongoDB `find_one`: first matching document, if any. -/
def findOne (docs : List Doc) (q : List (String × Value)) : Option Doc :=
  docs.find? (fun d => matchesQuery d q)

/-- The collection plus the id the next `insert_one` will assign. -/
structure Store where
  docs : List Doc
  nextId : Nat
deriving DecidableEq, Repr

/-- One store operation, recorded in the order the handler performed it. -/
inductive Eff where
  | findOneOp (q : List (String × Value))
  | insertOneOp (d : Doc)
deriving DecidableEq, Repr

/-- The response model `UserResponse` of src/main.py. -/
structure UserResponse where
  id : String
  email : String
  user_type : String
  message : String
deriving DecidableEq, Repr

/-- An error outcome: either FastAPI schema validation failed (HTTP 422
before the handler runs), or the handler raised `HTTPException` with the
given status code and detail string. -/
inductive ApiError where
  | validationErr
  | httpError (status : Nat) (detail : String)
deriving DecidableEq, Repr

instance {α β : Type} [DecidableEq α] [DecidableEq β] : DecidableEq (Except α β) :=
  fun a b =>
    match a, b with
    | .ok x, .ok y =>
      if h : x = y then .isTrue (h ▸ rfl)
      else .isFalse (fun hh => h (Except.ok.inj hh))
    | .error x, .error y =>
      if h : x = y then .isTrue (h ▸ rfl)
      else .isFalse (fun hh => h (Except.error.inj hh))
    | .ok _, .error _ => .isFalse (fun hh => Except.noConfusion hh)
    | .error _, .ok _ => .isFalse (fun hh => Except.noConfusion hh)

/-- Outcome of one request: the response or error, the store afterwards,
and the trace of store operations performed. -/
structure RunResult where
  result : Except ApiError UserResponse
  store : Store
  trace : List Eff
deriving DecidableEq, Repr

/-! Phone-pattern validation.

The source validates `phone` twice: pydantic's `Field(pattern=r'^\+92 \d{11}$')`
(checked by pydantic-core's Rust regex engine, whose `$` matches only at the
very end of the string) and the `field_validator` running Python's
`re.match(r'^\+92 \d{11}$', v)` (whose `$` also matches just before one final
newline).  In both engines `\d` matches any Unicode decimal digit
(category Nd), not only ASCII. -/

/-- Code-point ranges of Unicode general category Nd (decimal digit),
Unicode 14.0 — exactly the characters `\d` matches in the two regex
engines the source relies on. -/
def ndRanges : List (Nat × Nat) :=
  [(0x30, 0x39), (0x660, 0x669), (0x6f0, 0x6f9), (0x7c0, 0x7c9),
   (0x966, 0x96f), (0x9e6, 0x9ef), (0xa66, 0xa6f), (0xae6, 0xaef),
   (0xb66, 0xb6f), (0xbe6, 0xbef), (0xc66, 0xc6f), (0xce6, 0xcef),
   (0xd66, 0xd6f), (0xde6, 0xdef), (0xe50, 0xe59), (0xed0, 0xed9),
   (0xf20, 0xf29), (0x1040, 0x1049), (0x1090, 0x1099), (0x17e0, 0x17e9),
   (0x1810, 0x1819), (0x1946, 0x194f), (0x19d0, 0x19d9), (0x1a80, 0x1a89),
   (0x1a90, 0x1a99), (0x1b50, 0x1b59), (0x1bb0, 0x1bb9), (0x1c40, 0x1c49),
   (0x1c50, 0x1c59), (0xa620, 0xa629), (0xa8d0, 0xa8d9), (0xa900, 0xa909),
   (0xa9d0, 0xa9d9), (0xa9f0, 0xa9f9), (0xaa50, 0xaa59), (0xabf0, 0xabf9),
   (0xff10, 0xff19), (0x104a0, 0x104a9), (0x10d30, 0x10d39),
   (0x11066, 0x1106f), (0x110f0, 0x110f9), (0x11136, 0x1113f),
   (0x111d0, 0x111d9), (0x112f0, 0x112f9), (0x11450, 0x11459),
   (0x114d0, 0x114d9), (0x11650, 0x11659), (0x116c0, 0x116c9),
   (0x11730, 0x11739), (0x118e0, 0x118e9), (0x11950, 0x11959),
   (0x11c50, 0x11c59), (0x11d50, 0x11d59), (0x11da0, 0x11da9),
   (0x16a60, 0x16a69), (0x16ac0, 0x16ac9), (0x16b50, 0x16b59),
   (0x1d7ce, 0x1d7ff), (0x1e140, 0x1e149), (0x1e2f0, 0x1e2f9),
   (0x1e950, 0x1e959), (0x1fbf0, 0x1fbf9)]

/-- Whether a character is a Unicode decimal digit (what `\d` matches). -/
def isNdDigit (c : Char) : Bool :=
  ndRanges.any (fun r => decide (r.1 ≤ c.toNat) && decide (c.toNat ≤ r.2))

/-- Matches the regex body `\+92 \d{11}` at the head of the character list;
on success returns the characters left over after the 11 digits. -/
def matchPhoneBody (cs : List Char) : Option (List Char) :=
  match cs with
  | c1 :: c2 :: c3 :: c4 :: rest =>
    if c1 = '+' ∧ c2 = '9' ∧ c3 = '2' ∧ c4 = ' ' then
      if (rest.take 11).length = 11 ∧ (rest.take 11).all isNdDigit then
        some (rest.drop 11)
      else none
    else none
  | _ => none

/-- The pydantic `Field(pattern=...)` check: Rust regex engine, `$` only
matches at the end of the haystack. -/
def rustPatternMatch (s : String) : Bool :=
  match matchPhoneBody s.data with
  | some rest => rest.isEmpty
  | none => false

/-- The `field_validator` check: Python `re.match`, where `$` matches at
the end of the string or just before one final newline. -/
def pyPatternMatch (s : String) : Bool :=
  match matchPhoneBody s.data with
  | some rest => rest.isEmpty || rest == ['\n']
  | none => false

/-- A supplied phone string passes validation exactly when both checks the
source installs on the field accept it. -/
def phoneOk (s : String) : Bool :=
  rustPatternMatch s && pyPatternMatch s

/-! Role payload schemas (the four pydantic models).  String length
constraints in pydantic (`min_length` / `max_length`) count characters
(Unicode code points), which is what `String.length` counts. -/

/-- Admin signup payload. -/
structure AdminSignup where
  email : String
  password : String
  phone : String
  name : String
  admin_code : String
deriving DecidableEq, Repr

/-- Student signup payload (phone is optional). -/
structure StudentSignup where
  email : String
  password : String
  phone : Option String
  name : String
  institution_name : String
deriving DecidableEq, Repr

/-- School/College signup payload (head_of_institute is optional). -/
structure SchoolCollegeSignup where
  email : String
  password : String
  phone : String
  institute_name : String
  address : String
  head_of_institute : Option String
deriving DecidableEq, Repr

/-- Promoter signup payload. -/
structure PromoterSignup where
  email : String
  password : String
  phone : String
  name : String
deriving DecidableEq, Repr

/-- The password length rule all four schemas share:
`Field(..., min_length=8, max_length=72)`, counted in characters. -/
def passwordLenOk (pw : String) : Bool :=
  decide (8 ≤ pw.length) && decide (pw.length ≤ 72)

/-- Schema validation for `AdminSignup`. -/
def validAdminSignup (emailValid : String → Bool) (u : AdminSignup) : Bool :=
  emailValid u.email && passwordLenOk u.password && phoneOk u.phone &&
  decide (2 ≤ u.name.length) && decide (u.name.length ≤ 100)

/-- Schema validation for `StudentSignup`. -/
def validStudentSignup (emailValid : String → Bool) (u : StudentSignup) : Bool :=
  emailValid u.email && passwordLenOk u.password &&
  (match u.phone with | none => true | some p => phoneOk p) &&
  decide (2 ≤ u.name.length) && decide (u.name.length ≤ 100) &&
  decide (2 ≤ u.institution_name.length)

/-- Schema validation for `SchoolCollegeSignup`. -/
def validSchoolCollegeSignup (emailValid : String → Bool) (u : SchoolCollegeSignup) : Bool :=
  emailValid u.email && passwordLenOk u.password && phoneOk u.phone &&
  decide (2 ≤ u.institute_name.length) && decide (u.institute_name.length ≤ 200) &&
  decide (5 ≤ u.address.length)

/-- Schema validation for `PromoterSignup`. -/
def validPromoterSignup (emailValid : String → Bool) (u : PromoterSignup) : Bool :=
  emailValid u.email && passwordLenOk u.password && phoneOk u.phone &&
  decide (2 ≤ u.name.length) && decide (u.name.length ≤ 100)

/-- The hard-coded admin secret of src/main.py line 169. -/
def ADMIN_SECRET_CODE : String := "ADMIN2024SECRET"

/-- The query `{"email": e}`. -/
def emailQuery (e : String) : List (String × Value) := [("email", Value.str e)]

/-- The query `{"phone": p}` — when the payload's phone is Python `None`
this is `{"phone": null}` (which is what student_signup sends). -/
def phoneQuery (p : Option String) : List (String × Value) :=
  [("phone", match p with | some s => Value.str s | none => Value.vnull)]

/-- Handler of `POST /signup/admin` (after schema validation): admin-code
gate, email lookup, phone lookup, insert. -/
def admin_signup (hashPw : String → String) (st : Store) (u : AdminSignup) : RunResult :=
  if u.admin_code ≠ ADMIN_SECRET_CODE then
    { result := .error (.httpError 403 "Invalid admin code. Access denied!"),
      store := st, trace := [] }
  else
    let emq := emailQuery u.email
    match findOne st.docs emq with
    | some _ =>
      { result := .error (.httpError 400 "Email already registered!"),
        store := st, trace := [.findOneOp emq] }
    | none =>
      let phq := phoneQuery (some u.phone)
      match findOne st.docs phq with
      | some _ =>
        { result := .error (.httpError 400 "Phone number already registered!"),
          store := st, trace := [.findOneOp emq, .findOneOp phq] }
      | none =>
        let stored : Doc :=
          [("email", .str u.email), ("password", .str (hashPw u.password)),
           ("phone", .str u.phone), ("name", .str u.name),
           ("user_type", .str "admin"), ("is_active", .boolean true),
           ("_id", .objectId st.nextId)]
        { result := .ok { id := toString st.nextId, email := u.email,
                          user_type := "admin",
                          message := "Admin registered successfully!" },
          store := { docs := st.docs ++ [stored], nextId := st.nextId + 1 },
          trace := [.findOneOp emq, .findOneOp phq, .insertOneOp stored] }

/-- Handler of `POST /signup/student` (after schema validation).  Note the
phone lookup is performed unconditionally with the payload's phone value —
when phone was omitted the query sent is `{"phone": null}`. -/
def student_signup (hashPw : String → String) (st : Store) (u : StudentSignup) : RunResult :=
  let emq := emailQuery u.email
  match findOne st.docs emq with
  | some _ =>
    { result := .error (.httpError 400 "Email already registered!"),
      store := st, trace := [.findOneOp emq] }
  | none =>
    let phq := phoneQuery u.phone
    match findOne st.docs phq with
    | some _ =>
      { result := .error (.httpError 400 "Phone number already registered!"),
        store := st, trace := [.findOneOp emq, .findOneOp phq] }
    | none =>
      let base : Doc :=
        [("email", .str u.email), ("password", .str (hashPw u.password)),
         ("name", .str u.name), ("user_type", .str "student"),
         ("is_active", .boolean true),
         ("institution_name", .str u.institution_name)]
      let withPhone : Doc :=
        match u.phone with
        | some p => base ++ [("phone", .str p)]
        | none => base
      let stored : Doc := withPhone ++ [("_id", .objectId st.nextId)]
      { result := .ok { id := toString st.nextId, email := u.email,
                        user_type := "student",
                        message := "Student registered successfully!" },
        store := { docs := st.docs ++ [stored], nextId := st.nextId + 1 },
        trace := [.findOneOp emq, .findOneOp phq, .insertOneOp stored] }

/-- Handler of `POST /signup/school_college` (after schema validation). -/
def school_college_signup (hashPw : String → String) (st : Store) (u : SchoolCollegeSignup) : RunResult :=
  let emq := emailQuery u.email
  match findOne st.docs emq with
  | some _ =>
    { result := .error (.httpError 400 "Email already registered!"),
      store := st, trace := [.findOneOp emq] }
  | none =>
    let phq := phoneQuery (some u.phone)
    match findOne st.docs phq with
    | some _ =>
      { result := .error (.httpError 400 "Phone number already registered!"),
        store := st, trace := [.findOneOp emq, .findOneOp phq] }
    | none =>
      let base : Doc :=
        [("email", .str u.email), ("password", .str (hashPw u.password)),
         ("phone", .str u.phone), ("institute_name", .str u.institute_name),
         ("user_type", .str "school/college"), ("is_active", .boolean true),
         ("address", .str u.address)]
      let withHead : Doc :=
        match u.head_of_institute with
        | some hd => base ++ [("head_of_institute", .str hd)]
        | none => base
      let stored : Doc := withHead ++ [("_id", .objectId st.nextId)]
      { result := .ok { id := toString st.nextId, email := u.email,
                        user_type := "school/college",
                        message := "School/College registered successfully!" },
        store := { docs := st.docs ++ [stored], nextId := st.nextId + 1 },
        trace := [.findOneOp emq, .findOneOp phq, .insertOneOp stored] }

/-- Handler of `POST /signup/promoter` (after schema validation). -/
def promoter_signup (hashPw : String → String) (st : Store) (u : PromoterSignup) : RunResult :=
  let emq := emailQuery u.email
  match findOne st.docs emq with
  | some _ =>
    { result := .error (.httpError 400 "Email already registered!"),
      store := st, trace := [.findOneOp emq] }
  | none =>
    let phq := phoneQuery (some u.phone)
    match findOne st.docs phq with
    | some _ =>
      { result := .error (.httpError 400 "Phone number already registered!"),
        store := st, trace := [.findOneOp emq, .findOneOp phq] }
    | none =>
      let stored : Doc :=
        [("email", .str u.email), ("password", .str (hashPw u.password)),
         ("phone", .str u.phone), ("name", .str u.name),
         ("user_type", .str "promoter"), ("is_active", .boolean true),
         ("_id", .objectId st.nextId)]
      { result := .ok { id := toString st.nextId, email := u.email,
                        user_type := "promoter",
                        message := "Promoter registered successfully!" },
        store := { docs := st.docs ++ [stored], nextId := st.nextId + 1 },
        trace := [.findOneOp emq, .findOneOp phq, .insertOneOp stored] }

/-- A signup request to any of the four routes. -/
inductive SignupPayload where
  | admin (u : AdminSignup)
  | student (u : StudentSignup)
  | schoolCollege (u : SchoolCollegeSignup)
  | promoter (u : PromoterSignup)
deriving DecidableEq, Repr

/-- The email a payload carries. -/
def SignupPayload.email : SignupPayload → String
  | .admin u => u.email
  | .student u => u.email
  | .schoolCollege u => u.email
  | .promoter u => u.email

/-- Dispatch to the role handler (schema validation already passed). -/
def signup_handler (hashPw : String → String) (st : Store) : SignupPayload → RunResult
  | .admin u => admin_signup hashPw st u
  | .student u => student_signup hashPw st u
  | .schoolCollege u => school_college_signup hashPw st u
  | .promoter u => promoter_signup hashPw st u

/-- Schema validation for any payload. -/
def validPayload (emailValid : String → Bool) : SignupPayload → Bool
  | .admin u => validAdminSignup emailValid u
  | .student u => validStudentSignup emailValid u
  | .schoolCollege u => validSchoolCollegeSignup emailValid u
  | .promoter u => validPromoterSignup emailValid u

/-- A full route: FastAPI schema validation (HTTP 422, handler never runs,
no store access) and then the handler. -/
def signup_route (emailValid : String → Bool) (hashPw : String → String)
    (st : Store) (p : SignupPayload) : RunResult :=
  if validPayload emailValid p then signup_handler hashPw st p
  else { result := .error .validationErr, store := st, trace := [] }

/-- The response shape of `GET /users/count`. -/
structure UsersCount where
  total_users : Nat
  admins : Nat
  students : Nat
  schools_colleges : Nat
  promoters : Nat
deriving DecidableEq, Repr

/-- MongoDB `count_documents`. -/
def count_documents (st : Store) (q : List (String × Value)) : Nat :=
  (st.docs.filter (fun d => matchesQuery d q)).length

/-- Endpoint `GET /users/count`. -/
def get_users_count (st : Store) : UsersCount :=
  { total_users := count_documents st [],
    admins := count_documents st [("user_type", .str "admin")],
    students := count_documents st [("user_type", .str "student")],
    schools_colleges := count_documents st [("user_type", .str "school/college")],
    promoters := count_documents st [("user_type", .str "promoter")] }

/-- The projection `{"password": 0}` of the listing query. -/
def excludePassword (d : Doc) : Doc :=
  d.filter (fun kv => kv.1 != "password")

/-- The loop `user['_id'] = str(user['_id'])` of the listing endpoint. -/
def stringifyId (d : Doc) : Doc :=
  d.map (fun kv =>
    if kv.1 = "_id" then
      (kv.1, match kv.2 with | .objectId n => Value.str (toString n) | v => v)
    else kv)

/-- The response shape of `GET /users/all`. -/
structure AllUsers where
  total_users : Nat
  users : List Doc
deriving DecidableEq, Repr

/-- Endpoint `GET /users/all`. -/
def get_all_users (st : Store) : AllUsers :=
  let us := st.docs.map (fun d => stringifyId (excludePassword d))
  { total_users := us.length, users := us }

/-! The credential hasher (src/main.py lines 33, 42-44):
`hash_password` computes the SHA-256 hexdigest of the password's UTF-8
encoding and hands that 64-character string to passlib's bcrypt
(`pwd_context.hash`), which draws a fresh salt on every call.  SHA-256 is
implemented here in full (FIPS 180-4); bcrypt and its salt are external
(passlib/bcrypt) and appear as parameters. -/

/-- Truncation to a 32-bit word. -/
def w32 (n : Nat) : Nat := n % 2 ^ 32

/-- 32-bit modular addition. -/
def add32 (a b : Nat) : Nat := (a + b) % 2 ^ 32

/-- 32-bit rotate right. -/
def rotr32 (n x : Nat) : Nat := w32 ((x >>> n) ||| (x <<< (32 - n)))

/-- SHA-256 round constants. -/
def sha256K : List Nat :=
  [0x428A2F98, 0x71374491, 0xB5C0FBCF, 0xE9B5DBA5, 0x3956C25B, 0x59F111F1,
   0x923F82A4, 0xAB1C5ED5, 0xD807AA98, 0x12835B01, 0x243185BE, 0x550C7DC3,
   0x72BE5D74, 0x80DEB1FE, 0x9BDC06A7, 0xC19BF174, 0xE49B69C1, 0xEFBE4786,
   0x0FC19DC6, 0x240CA1CC, 0x2DE92C6F, 0x4A7484AA, 0x5CB0A9DC, 0x76F988DA,
   0x983E5152, 0xA831C66D, 0xB00327C8, 0xBF597FC7, 0xC6E00BF3, 0xD5A79147,
   0x06CA6351, 0x14292967, 0x27B70A85, 0x2E1B2138, 0x4D2C6DFC, 0x53380D13,
   0x650A7354, 0x766A0ABB, 0x81C2C92E, 0x92722C85, 0xA2BFE8A1, 0xA81A664B,
   0xC24B8B70, 0xC76C51A3, 0xD192E819, 0xD6990624, 0xF40E3585, 0x106AA070,
   0x19A4C116, 0x1E376C08, 0x2748774C, 0x34B0BCB5, 0x391C0CB3, 0x4ED8AA4A,
   0x5B9CCA4F, 0x682E6FF3, 0x748F82EE, 0x78A5636F, 0x84C87814, 0x8CC70208,
   0x90BEFFFA, 0xA4506CEB, 0xBEF9A3F7, 0xC67178F2]

/-- The eight 32-bit working variables / hash state. -/
structure Hash8 where
  a : Nat
  b : Nat
  c : Nat
  d : Nat
  e : Nat
  f : Nat
  g : Nat
  h : Nat
deriving DecidableEq, Repr

/-- SHA-256 initial hash value. -/
def sha256Init : Hash8 :=
  ⟨0x6A09E667, 0xBB67AE85, 0x3C6EF372, 0xA54FF53A,
   0x510E527F, 0x9B05688C, 0x1F83D9AB, 0x5BE0CD19⟩

/-- SHA-256 Ch function. -/
def chooseF (x y z : Nat) : Nat := (x &&& y) ^^^ ((x ^^^ 0xffffffff) &&& z)

/-- SHA-256 Maj function. -/
def majF (x y z : Nat) : Nat := (x &&& y) ^^^ (x &&& z) ^^^ (y &&& z)

/-- SHA-256 lowercase sigma-0. -/
def sig0 (x : Nat) : Nat := rotr32 7 x ^^^ rotr32 18 x ^^^ (x >>> 3)

/-- SHA-256 lowercase sigma-1. -/
def sig1 (x : Nat) : Nat := rotr32 17 x ^^^ rotr32 19 x ^^^ (x >>> 10)

/-- SHA-256 uppercase Sigma-0. -/
def bigSig0 (x : Nat) : Nat := rotr32 2 x ^^^ rotr32 13 x ^^^ rotr32 22 x

/-- SHA-256 uppercase Sigma-1. -/
def bigSig1 (x : Nat) : Nat := rotr32 6 x ^^^ rotr32 11 x ^^^ rotr32 25 x

/-- Big-endian bytes to 32-bit words. -/
def bytesToWords : List Nat → List Nat
  | b0 :: b1 :: b2 :: b3 :: rest =>
    ((b0 <<< 24) ||| (b1 <<< 16) ||| (b2 <<< 8) ||| b3) :: bytesToWords rest
  | _ => []

/-- Appends the next word of the message schedule. -/
def scheduleStep (ws : List Nat) : List Nat :=
  ws ++ [add32 (add32 (ws.getD (ws.length - 16) 0) (sig0 (ws.getD (ws.length - 15) 0)))
              (add32 (ws.getD (ws.length - 7) 0) (sig1 (ws.getD (ws.length - 2) 0)))]

/-- One SHA-256 round with constant k and schedule word w. -/
def roundStep (k w : Nat) (s : Hash8) : Hash8 :=
  let t1 := add32 (add32 (add32 s.h (bigSig1 s.e)) (add32 (chooseF s.e s.f s.g) k)) w
  let t2 := add32 (bigSig0 s.a) (majF s.a s.b s.c)
  ⟨add32 t1 t2, s.a, s.b, s.c, add32 s.d t1, s.e, s.f, s.g⟩

/-- Compression of one 64-byte block. -/
def compressBlock (h0 : Hash8) (block : List Nat) : Hash8 :=
  let ws := scheduleStep^[48] (bytesToWords block)
  let s := (sha256K.zip ws).foldl (fun st kw => roundStep kw.1 kw.2 st) h0
  ⟨add32 h0.a s.a, add32 h0.b s.b, add32 h0.c s.c, add32 h0.d s.d,
   add32 h0.e s.e, add32 h0.f s.f, add32 h0.g s.g, add32 h0.h s.h⟩

/-- The 8-byte big-endian encoding of the bit length. -/
def lenBytes (n : Nat) : List Nat :=
  [(n >>> 56) % 256, (n >>> 48) % 256, (n >>> 40) % 256, (n >>> 32) % 256,
   (n >>> 24) % 256, (n >>> 16) % 256, (n >>> 8) % 256, n % 256]

/-- SHA-256 padding: a 0x80 byte, zeros to 56 mod 64, then the bit length. -/
def padMessage (bs : List Nat) : List Nat :=
  bs ++ [0x80] ++ List.replicate ((119 - bs.length % 64) % 64) 0 ++ lenBytes (8 * bs.length)

/-- Splits a byte list into 64-byte blocks (structural recursion on a fuel
argument so that it reduces definitionally; each step consumes 64 bytes,
so a fuel of the list length is always enough). -/
def toBlocksAux : Nat → List Nat → List (List Nat)
  | 0, _ => []
  | _ + 1, [] => []
  | fuel + 1, b :: bs => ((b :: bs).take 64) :: toBlocksAux fuel ((b :: bs).drop 64)

/-- Splits a byte list into 64-byte blocks. -/
def toBlocks (bs : List Nat) : List (List Nat) := toBlocksAux bs.length bs

/-- SHA-256 of a byte list. -/
def sha256Digest (bs : List Nat) : Hash8 :=
  (toBlocks (padMessage bs)).foldl compressBlock sha256Init

/-- Lowercase hex digit for a nibble. -/
def hexDigitChar (n : Nat) : Char :=
  if n < 10 then Char.ofNat (48 + n) else Char.ofNat (87 + n)

/-- Eight lowercase hex digits of a 32-bit word. -/
def wordHex (x : Nat) : String :=
  ⟨[hexDigitChar ((x >>> 28) % 16), hexDigitChar ((x >>> 24) % 16),
    hexDigitChar ((x >>> 20) % 16), hexDigitChar ((x >>> 16) % 16),
    hexDigitChar ((x >>> 12) % 16), hexDigitChar ((x >>> 8) % 16),
    hexDigitChar ((x >>> 4) % 16), hexDigitChar (x % 16)]⟩

/-- UTF-8 encoding of one character. -/
def charUtf8 (c : Char) : List Nat :=
  let n := c.toNat
  if n < 0x80 then [n]
  else if n < 0x800 then
    [0xc0 ||| (n >>> 6), 0x80 ||| (n &&& 0x3f)]
  else if n < 0x10000 then
    [0xe0 ||| (n >>> 12), 0x80 ||| ((n >>> 6) &&& 0x3f), 0x80 ||| (n &&& 0x3f)]
  else
    [0xf0 ||| (n >>> 18), 0x80 ||| ((n >>> 12) &&& 0x3f),
     0x80 ||| ((n >>> 6) &&& 0x3f), 0x80 ||| (n &&& 0x3f)]

/-- UTF-8 encoding of a string (Python `password.encode('utf-8')`). -/
def strUtf8 (s : String) : List Nat :=
  s.data.foldr (fun c acc => charUtf8 c ++ acc) []

/-- The UTF-8 byte length of a string (Python `len(s.encode('utf-8'))`). -/
def utf8Len (s : String) : Nat := (strUtf8 s).length

/-- The hexdigest `hashlib.sha256(s.encode('utf-8')).hexdigest()`. -/
def sha256hex (s : String) : String :=
  let d := sha256Digest (strUtf8 s)
  wordHex d.a ++ wordHex d.b ++ wordHex d.c ++ wordHex d.d ++
  wordHex d.e ++ wordHex d.f ++ wordHex d.g ++ wordHex d.h

/-- The function `hash_password` of src/main.py: SHA-256 hexdigest first,
then passlib's bcrypt hash.  `bcryptHash` is the external
`pwd_context.hash` primitive and `salt` the salt it draws for this call. -/
def hash_password {σ : Type} (bcryptHash : String → σ → String) (salt : σ)
    (password : String) : String :=
  bcryptHash (sha256hex password) salt

/-- Modelled from the spec: no verification routine exists in src/main.py
(spec §4.1 notes verification "is not present in this repo's endpoints");
per the spec it must re-derive the digest and check it against the stored
hash with the slow algorithm's verifier, here the external parameter
`bcryptVerify`. -/
def verify_password (bcryptVerify : String → String → Bool)
    (password stored : String) : Bool :=
  bcryptVerify (sha256hex password) stored

/-- Store states this system can produce: the store starts empty (with any
id counter) and evolves only through the signup routes.  (The two read
endpoints do not touch the store.) -/
inductive Reachable : Store → Prop where
  | empty (n : Nat) : Reachable { docs := [], nextId := n }
  | step (emailValid : String → Bool) (hashPw : String → String)
      (p : SignupPayload) {st : Store} :
      Reachable st → Reachable (signup_route emailValid hashPw st p).store

/-- The password a payload carries. -/
def SignupPayload.password : SignupPayload → String
  | .admin u => u.password
  | .student u => u.password
  | .schoolCollege u => u.password
  | .promoter u => u.password

/-- The fixed `user_type` literal each endpoint writes. -/
def SignupPayload.roleLiteral : SignupPayload → String
  | .admin _ => "admin"
  | .student _ => "student"
  | .schoolCollege _ => "school/college"
  | .promoter _ => "promoter"

/-- The phone format exactly as the spec words it: the literal `+92`, one
space, and 11 ASCII digits, nothing else.  (Stated only to compare against
the behaviour of the source's regexes.) -/
def phoneOkSpec (s : String) : Bool :=
  match s.data with
  | '+' :: '9' :: '2' :: ' ' :: rest => decide (rest.length = 11) && rest.all Char.isDigit
  | _ => false

/-- The sixteen lowercase hex digits. -/
def hexChars : List Char := "0123456789abcdef".data

/-! Concrete fixtures used by witnesses and scenario theorems.  The email
check is instantiated with the always-true predicate and the bcrypt
primitive with the function returning its digest input unchanged, so the
concrete hash function is the real SHA-256 hexdigest. -/

/-- The store before any request. -/
def emptyStore : Store := { docs := [], nextId := 0 }

/-- Concrete email-validator instantiation. -/
def wEmailOk : String → Bool := fun _ => true

/-- Concrete bcrypt instantiation (salt type Unit, returns the digest). -/
def wBcrypt : String → Unit → String := fun d _ => d

/-- The concrete hash function the fixtures run: real SHA-256, then
`wBcrypt`. -/
def wHash : String → String := hash_password wBcrypt ()

/-- A valid admin payload with the correct admin code. -/
def wAdmin : AdminSignup :=
  { email := "admin@example.com", password := "admin12345",
    phone := "+92 11111111111", name := "Admin User",
    admin_code := "ADMIN2024SECRET" }

/-- A valid admin payload with a wrong admin code. -/
def wBadAdmin : AdminSignup :=
  { email := "admin@example.com", password := "admin12345",
    phone := "+92 11111111111", name := "Admin User",
    admin_code := "WRONG2024SECRET" }

/-- A valid student payload (with a phone). -/
def wStudent : StudentSignup :=
  { email := "student@example.com", password := "student123",
    phone := some "+92 22222222222", name := "Ahmed Ali",
    institution_name := "ABC School" }

/-- A valid school/college payload. -/
def wSchool : SchoolCollegeSignup :=
  { email := "school@example.com", password := "school123",
    phone := "+92 33333333333", institute_name := "XYZ College",
    address := "Karachi, Pakistan", head_of_institute := none }

/-- A valid promoter payload. -/
def wPromoter : PromoterSignup :=
  { email := "promoter@example.com", password := "promoter123",
    phone := "+92 44444444444", name := "Promoter Name" }

/-- One signup of each role, in sequence, from the empty store. -/
def wRun1 : RunResult := signup_route wEmailOk wHash emptyStore (.admin wAdmin)

/-- Second step of the four-role scenario. -/
def wRun2 : RunResult := signup_route wEmailOk wHash wRun1.store (.student wStudent)

/-- Third step of the four-role scenario. -/
def wRun3 : RunResult := signup_route wEmailOk wHash wRun2.store (.schoolCollege wSchool)

/-- Fourth step of the four-role scenario. -/
def wRun4 : RunResult := signup_route wEmailOk wHash wRun3.store (.promoter wPromoter)

/-- A valid student payload that omits the phone. -/
def stuNoPhone1 : StudentSignup :=
  { email := "first@example.com", password := "password1", phone := none,
    name := "First Student", institution_name := "ABC School" }

/-- A second valid student payload that omits the phone, different email. -/
def stuNoPhone2 : StudentSignup :=
  { email := "second@example.com", password := "password1", phone := none,
    name := "Second Student", institution_name := "ABC School" }

/-- First phone-less student signup, from the empty store. -/
def bugRun1 : RunResult := signup_route wEmailOk wHash emptyStore (.student stuNoPhone1)

/-- Second phone-less student signup, after the first. -/
def bugRun2 : RunResult := signup_route wEmailOk wHash bugRun1.store (.student stuNoPhone2)

/-- A phone string of `+92`, one space, and 11 Arabic-Indic digits
(U+0660), which are Unicode decimal digits but not ASCII digits. -/
def arabicPhone : String :=
  ⟨'+' :: '9' :: '2' :: ' ' :: List.replicate 11 (Char.ofNat 0x660)⟩

/-- A password of 4 characters that occupy 8 UTF-8 bytes. -/
def eAcute4 : String := "éééé"

/-- A password of 72 characters that occupy 144 UTF-8 bytes. -/
def eAcute72 : String := ⟨List.replicate 72 (Char.ofNat 0xe9)⟩

/-- A student payload whose password is 72 characters / 144 bytes. -/
def longPwStudent : StudentSignup :=
  { email := "long@example.com", password := eAcute72,
    phone := some "+92 55555555555", name := "Long Password",
    institution_name := "ABC School" }

/-- Signup with the 144-byte password, from the empty store. -/
def longPwRun : RunResult := signup_route wEmailOk wHash emptyStore (.student longPwStudent)

/-- A student payload whose password has fewer than 8 characters. -/
def shortPwStudent : StudentSignup :=
  { email := "short@example.com", password := "short", phone := none,
    name := "Short Password", institution_name := "ABC School" }

/-- A valid promoter payload re-using the student fixture's email. -/
def wDupPromoter : PromoterSignup :=
  { email := "student@example.com", password := "promoter123",
    phone := "+92 66666666666", name := "Dup Promoter" }

/-! Theorems. -/

/-- A password whose character count is below 8 or above 72 fails the
shared length rule. -/
theorem passwordLenOk_eq_false {pw : String}
    (h : pw.length < 8 ∨ 72 < pw.length) : passwordLenOk pw = false := by
  simp only [passwordLenOk, Bool.and_eq_false_iff, decide_eq_false_iff_not]
  omega

/-- Schema validation of any role rejects a payload whose password length
is out of range. -/
theorem validPayload_password_false (emailValid : String → Bool)
    (p : SignupPayload) (h : p.password.length < 8 ∨ 72 < p.password.length) :
    validPayload emailValid p = false := by
  cases p <;>
    simp only [SignupPayload.password] at h <;>
    simp [validPayload, validAdminSignup, validStudentSignup,
          validSchoolCollegeSignup, validPromoterSignup,
          passwordLenOk_eq_false h]

/-- C4: an admin signup payload that passes schema validation but whose
admin_code differs from the configured secret is rejected with HTTP 403
"Invalid admin code. Access denied!", the store is unchanged, and no store
operation (read or write) is performed. -/
theorem C4_admin_code_gate (emailValid : String → Bool) (hashPw : String → String)
    (st : Store) (u : AdminSignup)
    (hval : validAdminSignup emailValid u = true)
    (hcode : u.admin_code ≠ ADMIN_SECRET_CODE) :
    signup_route emailValid hashPw st (.admin u) =
      { result := .error (.httpError 403 "Invalid admin code. Access denied!"),
        store := st, trace := [] } := by
  simp [signup_route, validPayload, hval, signup_handler, admin_signup, hcode]

/-- Witness for C4 at a concrete payload with a wrong admin code. -/
theorem C4_admin_code_gate_witness :
    validAdminSignup wEmailOk wBadAdmin = true ∧
    wBadAdmin.admin_code ≠ ADMIN_SECRET_CODE ∧
    signup_route wEmailOk wHash emptyStore (.admin wBadAdmin) =
      { result := .error (.httpError 403 "Invalid admin code. Access denied!"),
        store := emptyStore, trace := [] } :=
  ⟨by decide, by decide,
   C4_admin_code_gate wEmailOk wHash emptyStore wBadAdmin (by decide) (by decide)⟩

/-- C2 (amended): a payload of any role whose password has fewer than 8 or
more than 72 characters (Unicode code points) is rejected with a
validation error before any store access, and a password of 8 to 72
characters passes the shared length rule. -/
theorem C2_password_length (emailValid : String → Bool) (hashPw : String → String)
    (st : Store) (p : SignupPayload) :
    ((p.password.length < 8 ∨ 72 < p.password.length) →
      signup_route emailValid hashPw st p =
        { result := .error .validationErr, store := st, trace := [] }) ∧
    (8 ≤ p.password.length → p.password.length ≤ 72 →
      passwordLenOk p.password = true) := by
  constructor
  · intro h
    simp [signup_route, validPayload_password_false emailValid p h]
  · intro h1 h2
    simp only [passwordLenOk, Bool.and_eq_true, decide_eq_true_eq]
    exact ⟨h1, h2⟩

/-- Witness for C2 at a concrete 5-character password. -/
theorem C2_password_length_witness :
    signup_route wEmailOk wHash emptyStore (.student shortPwStudent) =
      { result := .error .validationErr, store := emptyStore, trace := [] } :=
  (C2_password_length wEmailOk wHash emptyStore (.student shortPwStudent)).1 (by decide)

/-- C2 counterexample to the claim as stated (byte-length): the password
"éééé" occupies exactly 8 UTF-8 bytes yet fails the length rule, and a
72-character password of 144 UTF-8 bytes passes validation, reaches the
store and is registered. -/
theorem C2_bytes_counterexample :
    utf8Len eAcute4 = 8 ∧ passwordLenOk eAcute4 = false ∧
    utf8Len eAcute72 = 144 ∧ passwordLenOk eAcute72 = true ∧
    longPwRun.result =
      .ok { id := "0", email := "long@example.com", user_type := "student",
            message := "Student registered successfully!" } ∧
    longPwRun.trace ≠ [] := by
  refine ⟨by decide, by decide, by decide, by decide, by decide, by decide⟩

/-- C1: the code performs the phone-uniqueness lookup even when the payload
omits phone — it queries `{"phone": null}`, which in MongoDB also matches
records with no phone field.  From the empty store, a first phone-less
student signup succeeds (and the stored record indeed has no phone field),
but a second phone-less student signup with a fresh email is rejected with
"Phone number already registered!", and its trace shows the null-phone
lookup was performed. -/
theorem C1_phone_null_lookup_bug :
    bugRun1.result =
      .ok { id := "0", email := "first@example.com", user_type := "student",
            message := "Student registered successfully!" } ∧
    bugRun1.store.docs.map (fun d => d.get "phone") = [none] ∧
    bugRun2.result = .error (.httpError 400 "Phone number already registered!") ∧
    bugRun2.store = bugRun1.store ∧
    bugRun2.trace =
      [.findOneOp (emailQuery "second@example.com"), .findOneOp (phoneQuery none)] := by
  refine ⟨by decide, by decide, by decide, by decide, by decide⟩

/-- C8: the total count is the number of stored records for every store,
and after one signup of each of the four roles from the empty store the
count endpoint reports 4 total and 1 per role. -/
theorem C8_users_count :
    (∀ st : Store, (get_users_count st).total_users = st.docs.length) ∧
    wRun1.result =
      .ok { id := "0", email := "admin@example.com", user_type := "admin",
            message := "Admin registered successfully!" } ∧
    wRun2.result =
      .ok { id := "1", email := "student@example.com", user_type := "student",
            message := "Student registered successfully!" } ∧
    wRun3.result =
      .ok { id := "2", email := "school@example.com", user_type := "school/college",
            message := "School/College registered successfully!" } ∧
    wRun4.result =
      .ok { id := "3", email := "promoter@example.com", user_type := "promoter",
            message := "Promoter registered successfully!" } ∧
    get_users_count wRun4.store =
      { total_users := 4, admins := 1, students := 1,
        schools_colleges := 1, promoters := 1 } := by
  refine ⟨?_, by decide, by decide, by decide, by decide, by decide⟩
  intro st
  simp [get_users_count, count_documents, matchesQuery]

/-- Characterization of a full match of the regex body against the whole
input: the input is the `+92 ` prefix followed by exactly 11 characters
all of which `\d` accepts. -/
theorem matchPhoneBody_eq_some_nil (cs : List Char) :
    matchPhoneBody cs = some [] ↔
      ∃ ds, cs = '+' :: '9' :: '2' :: ' ' :: ds ∧
        ds.length = 11 ∧ ds.all isNdDigit = true := by
  constructor
  · intro h
    rcases cs with _ | ⟨c1, _ | ⟨c2, _ | ⟨c3, _ | ⟨c4, rest⟩⟩⟩⟩
    · simp [matchPhoneBody] at h
    · simp [matchPhoneBody] at h
    · simp [matchPhoneBody] at h
    · simp [matchPhoneBody] at h
    · simp only [matchPhoneBody] at h
      split_ifs at h with h1 h2
      · obtain ⟨e1, e2, e3, e4⟩ := h1
        subst e1; subst e2; subst e3; subst e4
        have hdrop : rest.drop 11 = [] := by simpa using h
        have hle : rest.length ≤ 11 := by rwa [List.drop_eq_nil_iff] at hdrop
        have htake : rest.take 11 = rest := List.take_of_length_le hle
        refine ⟨rest, rfl, ?_, ?_⟩
        · have := h2.1; rwa [htake] at this
        · have := h2.2; rwa [htake] at this
  · rintro ⟨ds, rfl, hlen, hall⟩
    have htake : ds.take 11 = ds := List.take_of_length_le (le_of_eq hlen)
    have hdrop : ds.drop 11 = [] := List.drop_eq_nil_iff.mpr (le_of_eq hlen)
    simp [matchPhoneBody, htake, hlen, hall, hdrop]

/-- A phone string passes both regex checks exactly when the regex body
consumes the entire string. -/
theorem phoneOk_iff_matchBody (s : String) :
    phoneOk s = true ↔ matchPhoneBody s.data = some [] := by
  cases h : matchPhoneBody s.data with
  | none => simp [phoneOk, rustPatternMatch, pyPatternMatch, h]
  | some rest =>
    cases rest with
    | nil => simp [phoneOk, rustPatternMatch, pyPatternMatch, h]
    | cons a as => simp [phoneOk, rustPatternMatch, pyPatternMatch, h]

/-- C3 (amended): a supplied phone string passes validation if and only if
it is the literal `+92`, one space, and exactly 11 Unicode decimal digits
(category Nd, what `\d` matches in the source's regex engines), with
nothing else before or after; every other string fails. -/
theorem C3_phone_pattern (s : String) :
    phoneOk s = true ↔
      ∃ ds : List Char, s.data = '+' :: '9' :: '2' :: ' ' :: ds ∧
        ds.length = 11 ∧ ∀ c ∈ ds, isNdDigit c = true := by
  rw [phoneOk_iff_matchBody, matchPhoneBody_eq_some_nil]
  constructor
  · rintro ⟨ds, h1, h2, h3⟩
    exact ⟨ds, h1, h2, by simpa [List.all_eq_true] using h3⟩
  · rintro ⟨ds, h1, h2, h3⟩
    exact ⟨ds, h1, h2, by simpa [List.all_eq_true] using h3⟩

/-- Witness for C3 at the documented example phone number. -/
theorem C3_phone_pattern_witness :
    phoneOk "+92 12345678901" = true :=
  (C3_phone_pattern "+92 12345678901").mpr
    ⟨['1', '2', '3', '4', '5', '6', '7', '8', '9', '0', '1'],
     by decide, by decide, by decide⟩

/-- C3 counterexample to "ASCII digits": a phone of `+92 `, then 11
Arabic-Indic digits (U+0660), is accepted by the source's validation even
though it is not of the form the claim describes (its digits are not ASCII
digits). -/
theorem C3_ascii_counterexample :
    phoneOk arabicPhone = true ∧ phoneOkSpec arabicPhone = false := by
  refine ⟨by decide, by decide⟩

/-- The admin handler either leaves the store untouched and fails, or
appends exactly one document whose fields are those built at
src/main.py lines 218-225. -/
theorem admin_signup_shape (hashPw : String → String) (st : Store) (u : AdminSignup) :
    ((admin_signup hashPw st u).store = st ∧
        ∀ r, (admin_signup hashPw st u).result ≠ .ok r) ∨
      ∃ d, (admin_signup hashPw st u).store.docs = st.docs ++ [d] ∧
        (admin_signup hashPw st u).result =
          .ok { id := toString st.nextId, email := u.email, user_type := "admin",
                message := "Admin registered successfully!" } ∧
        d.get "email" = some (.str u.email) ∧
        d.get "password" = some (.str (hashPw u.password)) ∧
        d.get "password_hash" = none ∧
        d.get "user_type" = some (.str "admin") ∧
        d.get "is_active" = some (.boolean true) ∧
        d.get "phone" = some (.str u.phone) := by
  simp only [admin_signup]
  split
  · exact .inl ⟨rfl, fun r h => Except.noConfusion h⟩
  · split
    · exact .inl ⟨rfl, fun r h => Except.noConfusion h⟩
    · split
      · exact .inl ⟨rfl, fun r h => Except.noConfusion h⟩
      · exact .inr ⟨_, rfl, rfl, rfl, rfl, rfl, rfl, rfl, rfl⟩

/-- The student handler either leaves the store untouched and fails, or
appends exactly one document whose fields are those built at
src/main.py lines 266-277 (phone present exactly when supplied). -/
theorem student_signup_shape (hashPw : String → String) (st : Store) (u : StudentSignup) :
    ((student_signup hashPw st u).store = st ∧
        ∀ r, (student_signup hashPw st u).result ≠ .ok r) ∨
      ∃ d, (student_signup hashPw st u).store.docs = st.docs ++ [d] ∧
        (student_signup hashPw st u).result =
          .ok { id := toString st.nextId, email := u.email, user_type := "student",
                message := "Student registered successfully!" } ∧
        d.get "email" = some (.str u.email) ∧
        d.get "password" = some (.str (hashPw u.password)) ∧
        d.get "password_hash" = none ∧
        d.get "user_type" = some (.str "student") ∧
        d.get "is_active" = some (.boolean true) ∧
        d.get "phone" = Option.map Value.str u.phone := by
  simp only [student_signup]
  split
  · exact .inl ⟨rfl, fun r h => Except.noConfusion h⟩
  · split
    · exact .inl ⟨rfl, fun r h => Except.noConfusion h⟩
    · cases hp : u.phone with
      | none => exact .inr ⟨_, rfl, rfl, rfl, rfl, rfl, rfl, rfl, rfl⟩
      | some p => exact .inr ⟨_, rfl, rfl, rfl, rfl, rfl, rfl, rfl, rfl⟩

/-- The school/college handler either leaves the store untouched and
fails, or appends exactly one document whose fields are those built at
src/main.py lines 318-330 (head_of_institute present exactly when
supplied). -/
theorem school_college_signup_shape (hashPw : String → String) (st : Store)
    (u : SchoolCollegeSignup) :
    ((school_college_signup hashPw st u).store = st ∧
        ∀ r, (school_college_signup hashPw st u).result ≠ .ok r) ∨
      ∃ d, (school_college_signup hashPw st u).store.docs = st.docs ++ [d] ∧
        (school_college_signup hashPw st u).result =
          .ok { id := toString st.nextId, email := u.email,
                user_type := "school/college",
                message := "School/College registered successfully!" } ∧
        d.get "email" = some (.str u.email) ∧
        d.get "password" = some (.str (hashPw u.password)) ∧
        d.get "password_hash" = none ∧
        d.get "user_type" = some (.str "school/college") ∧
        d.get "is_active" = some (.boolean true) ∧
        d.get "head_of_institute" = Option.map Value.str u.head_of_institute := by
  simp only [school_college_signup]
  split
  · exact .inl ⟨rfl, fun r h => Except.noConfusion h⟩
  · split
    · exact .inl ⟨rfl, fun r h => Except.noConfusion h⟩
    · cases hh : u.head_of_institute with
      | none => exact .inr ⟨_, rfl, rfl, rfl, rfl, rfl, rfl, rfl, rfl⟩
      | some hd => exact .inr ⟨_, rfl, rfl, rfl, rfl, rfl, rfl, rfl, rfl⟩

/-- The promoter handler either leaves the store untouched and fails, or
appends exactly one document whose fields are those built at
src/main.py lines 371-378. -/
theorem promoter_signup_shape (hashPw : String → String) (st : Store) (u : PromoterSignup) :
    ((promoter_signup hashPw st u).store = st ∧
        ∀ r, (promoter_signup hashPw st u).result ≠ .ok r) ∨
      ∃ d, (promoter_signup hashPw st u).store.docs = st.docs ++ [d] ∧
        (promoter_signup hashPw st u).result =
          .ok { id := toString st.nextId, email := u.email, user_type := "promoter",
                message := "Promoter registered successfully!" } ∧
        d.get "email" = some (.str u.email) ∧
        d.get "password" = some (.str (hashPw u.password)) ∧
        d.get "password_hash" = none ∧
        d.get "user_type" = some (.str "promoter") ∧
        d.get "is_active" = some (.boolean true) ∧
        d.get "phone" = some (.str u.phone) := by
  simp only [promoter_signup]
  split
  · exact .inl ⟨rfl, fun r h => Except.noConfusion h⟩
  · split
    · exact .inl ⟨rfl, fun r h => Except.noConfusion h⟩
    · exact .inr ⟨_, rfl, rfl, rfl, rfl, rfl, rfl, rfl, rfl⟩

/-- When the admin-code gate does not fail, every handler's first store
operation is the email lookup. -/
theorem signup_handler_trace_head (hashPw : String → String) (st : Store)
    (p : SignupPayload)
    (hgate : ∀ u, p = .admin u → u.admin_code = ADMIN_SECRET_CODE) :
    (signup_handler hashPw st p).trace.head? =
      some (.findOneOp (emailQuery p.email)) := by
  cases p with
  | admin u =>
    have hcode := hgate u rfl
    show (admin_signup hashPw st u).trace.head? = _
    simp only [admin_signup]
    rw [if_neg (by simp [hcode])]
    cases hfe : findOne st.docs (emailQuery u.email) with
    | some d => rfl
    | none =>
      cases hfp : findOne st.docs (phoneQuery (some u.phone)) with
      | some d => rfl
      | none => rfl
  | student u =>
    show (student_signup hashPw st u).trace.head? = _
    simp only [student_signup]
    cases hfe : findOne st.docs (emailQuery u.email) with
    | some d => rfl
    | none =>
      cases hfp : findOne st.docs (phoneQuery u.phone) with
      | some d => rfl
      | none => cases u.phone <;> rfl
  | schoolCollege u =>
    show (school_college_signup hashPw st u).trace.head? = _
    simp only [school_college_signup]
    cases hfe : findOne st.docs (emailQuery u.email) with
    | some d => rfl
    | none =>
      cases hfp : findOne st.docs (phoneQuery (some u.phone)) with
      | some d => rfl
      | none => cases u.head_of_institute <;> rfl
  | promoter u =>
    show (promoter_signup hashPw st u).trace.head? = _
    simp only [promoter_signup]
    cases hfe : findOne st.docs (emailQuery u.email) with
    | some d => rfl
    | none =>
      cases hfp : findOne st.docs (phoneQuery (some u.phone)) with
      | some d => rfl
      | none => rfl

/-- When a record with the payload's email already exists, every handler
(with the admin gate passing) answers HTTP 400 "Email already registered!"
after the email lookup alone: no phone lookup, no insert, store
unchanged. -/
theorem signup_handler_email_conflict (hashPw : String → String) (st : Store)
    (p : SignupPayload) (d : Doc)
    (hgate : ∀ u, p = .admin u → u.admin_code = ADMIN_SECRET_CODE)
    (hfind : findOne st.docs (emailQuery p.email) = some d) :
    signup_handler hashPw st p =
      { result := .error (.httpError 400 "Email already registered!"),
        store := st, trace := [.findOneOp (emailQuery p.email)] } := by
  cases p with
  | admin u =>
    have hcode := hgate u rfl
    simp only [SignupPayload.email] at hfind ⊢
    show admin_signup hashPw st u = _
    simp only [admin_signup]
    rw [if_neg (by simp [hcode]), hfind]
  | student u =>
    simp only [SignupPayload.email] at hfind ⊢
    show student_signup hashPw st u = _
    simp only [student_signup]
    rw [hfind]
  | schoolCollege u =>
    simp only [SignupPayload.email] at hfind ⊢
    show school_college_signup hashPw st u = _
    simp only [school_college_signup]
    rw [hfind]
  | promoter u =>
    simp only [SignupPayload.email] at hfind ⊢
    show promoter_signup hashPw st u = _
    simp only [promoter_signup]
    rw [hfind]

/-- A document whose email field holds the string e matches the email
query for e. -/
theorem matchesQuery_email {d : Doc} {e : String}
    (h : d.get "email" = some (.str e)) :
    matchesQuery d (emailQuery e) = true := by
  simp [matchesQuery, emailQuery, matchesPair, h]

/-- Appending a matching document to the collection makes the lookup
succeed. -/
theorem findOne_append_isSome (l : List Doc) (d : Doc)
    (q : List (String × Value)) (hd : matchesQuery d q = true) :
    (findOne (l ++ [d]) q).isSome = true := by
  induction l with
  | nil => simp [findOne, List.find?, hd]
  | cons x xs ih =>
    simp only [findOne, List.cons_append, List.find?]
    cases hx : matchesQuery x q
    · simpa [findOne] using ih
    · simp

/-- A successful handler run appends exactly one document, and that
document's fields are as built in the source. -/
theorem signup_handler_ok_shape (hashPw : String → String) (st : Store)
    (p : SignupPayload) (resp : UserResponse)
    (hok : (signup_handler hashPw st p).result = .ok resp) :
    ∃ d, (signup_handler hashPw st p).store.docs = st.docs ++ [d] ∧
      d.get "email" = some (.str p.email) ∧
      d.get "password" = some (.str (hashPw p.password)) ∧
      d.get "password_hash" = none ∧
      d.get "user_type" = some (.str p.roleLiteral) ∧
      d.get "is_active" = some (.boolean true) ∧
      (∀ u, p = .student u → d.get "phone" = Option.map Value.str u.phone) ∧
      (∀ u, p = .schoolCollege u →
        d.get "head_of_institute" = Option.map Value.str u.head_of_institute) := by
  cases p with
  | admin u =>
    rcases admin_signup_shape hashPw st u with ⟨_, hne⟩ | ⟨d, h1, _, h3, h4, h5, h6, h7, _⟩
    · exact absurd hok (hne resp)
    · exact ⟨d, h1, h3, h4, h5, h6, h7,
        fun u' h => SignupPayload.noConfusion h,
        fun u' h => SignupPayload.noConfusion h⟩
  | student u =>
    rcases student_signup_shape hashPw st u with ⟨_, hne⟩ | ⟨d, h1, _, h3, h4, h5, h6, h7, h8⟩
    · exact absurd hok (hne resp)
    · refine ⟨d, h1, h3, h4, h5, h6, h7, ?_, fun u' h => SignupPayload.noConfusion h⟩
      intro u' h
      cases SignupPayload.student.inj h
      exact h8
  | schoolCollege u =>
    rcases school_college_signup_shape hashPw st u with
      ⟨_, hne⟩ | ⟨d, h1, _, h3, h4, h5, h6, h7, h8⟩
    · exact absurd hok (hne resp)
    · refine ⟨d, h1, h3, h4, h5, h6, h7, fun u' h => SignupPayload.noConfusion h, ?_⟩
      intro u' h
      cases SignupPayload.schoolCollege.inj h
      exact h8
  | promoter u =>
    rcases promoter_signup_shape hashPw st u with ⟨_, hne⟩ | ⟨d, h1, _, h3, h4, h5, h6, h7, _⟩
    · exact absurd hok (hne resp)
    · exact ⟨d, h1, h3, h4, h5, h6, h7,
        fun u' h => SignupPayload.noConfusion h,
        fun u' h => SignupPayload.noConfusion h⟩

/-- C5: in every role's uniqueness gate (the admin-code gate passing) the
email lookup comes first; a duplicate email is answered with the email
conflict alone — store unchanged, no phone lookup, no insert — and after a
successful registration, a second registration of any role with the same
email is rejected with the email conflict, the store stays as it was, and
(when the email was initially absent) exactly one record with that email
exists afterwards. -/
theorem C5_email_checked_first (hashPw : String → String) (st : Store)
    (p p2 : SignupPayload)
    (hgate : ∀ u, p = .admin u → u.admin_code = ADMIN_SECRET_CODE)
    (hgate2 : ∀ u, p2 = .admin u → u.admin_code = ADMIN_SECRET_CODE)
    (hemail : p2.email = p.email) :
    (signup_handler hashPw st p).trace.head? =
        some (.findOneOp (emailQuery p.email)) ∧
    (∀ d, findOne st.docs (emailQuery p.email) = some d →
      signup_handler hashPw st p =
        { result := .error (.httpError 400 "Email already registered!"),
          store := st, trace := [.findOneOp (emailQuery p.email)] }) ∧
    (∀ resp, (signup_handler hashPw st p).result = .ok resp →
      signup_handler hashPw (signup_handler hashPw st p).store p2 =
        { result := .error (.httpError 400 "Email already registered!"),
          store := (signup_handler hashPw st p).store,
          trace := [.findOneOp (emailQuery p.email)] } ∧
      (findOne st.docs (emailQuery p.email) = none →
        ((signup_handler hashPw st p).store.docs.filter
          (fun d => matchesQuery d (emailQuery p.email))).length = 1)) := by
  refine ⟨signup_handler_trace_head hashPw st p hgate,
          fun d h => signup_handler_email_conflict hashPw st p d hgate h, ?_⟩
  intro resp hok
  obtain ⟨d, hdocs, hem, _, _, _, _, _, _⟩ := signup_handler_ok_shape hashPw st p resp hok
  have hmatch : matchesQuery d (emailQuery p.email) = true := matchesQuery_email hem
  constructor
  · have hsome : (findOne (signup_handler hashPw st p).store.docs
        (emailQuery p2.email)).isSome = true := by
      rw [hemail, hdocs]
      exact findOne_append_isSome _ _ _ hmatch
    obtain ⟨y, hy⟩ := Option.isSome_iff_exists.mp hsome
    have hconf := signup_handler_email_conflict hashPw _ p2 y hgate2 hy
    rw [hconf, hemail]
  · intro hnone
    simp only [findOne] at hnone
    rw [hdocs, List.filter_append]
    have h1 : st.docs.filter (fun x => matchesQuery x (emailQuery p.email)) = [] := by
      apply List.filter_eq_nil_iff.mpr
      intro a ha
      simpa using List.find?_eq_none.mp hnone a ha
    rw [h1]
    simp [hmatch]

/-- Witness for C5: registering the student fixture and then a promoter
with the same email is rejected with the email conflict and the store is
unchanged. -/
theorem C5_email_checked_first_witness :
    signup_handler wHash (signup_handler wHash emptyStore (.student wStudent)).store
        (.promoter wDupPromoter) =
      { result := .error (.httpError 400 "Email already registered!"),
        store := (signup_handler wHash emptyStore (.student wStudent)).store,
        trace := [.findOneOp (emailQuery "student@example.com")] } :=
  ((C5_email_checked_first wHash emptyStore (.student wStudent) (.promoter wDupPromoter)
      (fun _ h => SignupPayload.noConfusion h)
      (fun _ h => SignupPayload.noConfusion h) (by decide)).2.2
    { id := "0", email := "student@example.com", user_type := "student",
      message := "Student registered successfully!" } (by decide)).1

/-- Filtering a document cannot create a field that was absent. -/
theorem get_filter_none (d : Doc) (f : String × Value → Bool) (k : String)
    (h : Doc.get d k = none) : Doc.get (d.filter f) k = none := by
  induction d with
  | nil => rfl
  | cons kv rest ih =>
    obtain ⟨k', v⟩ := kv
    by_cases hk : k' = k
    · rw [Doc.get, if_pos hk] at h
      exact absurd h (by simp)
    · rw [Doc.get, if_neg hk] at h
      rw [List.filter_cons]
      cases hf : f (k', v)
      · simp only [hf, Bool.false_eq_true, if_false]
        exact ih h
      · simp only [hf, if_true]
        rw [Doc.get, if_neg hk]
        exact ih h

/-- The `password` projection removes the password field. -/
theorem get_excludePassword (d : Doc) :
    Doc.get (excludePassword d) "password" = none := by
  induction d with
  | nil => rfl
  | cons kv rest ih =>
    obtain ⟨k', v⟩ := kv
    simp only [excludePassword, List.filter_cons] at ih ⊢
    by_cases hk : k' = "password"
    · simpa [hk] using ih
    · have hbne : (k' != "password") = true := by simp [hk]
      simp only [hbne, if_true]
      rw [Doc.get, if_neg hk]
      exact ih

/-- Stringifying the id keeps every key, so it maps one pair to one pair
with the same key. -/
theorem stringifyId_cons (k' : String) (v : Value) (rest : Doc) :
    stringifyId ((k', v) :: rest) =
      (k', if k' = "_id" then
              (match v with | .objectId n => Value.str (toString n) | w => w)
           else v) :: stringifyId rest := by
  simp only [stringifyId, List.map_cons]
  by_cases hid : k' = "_id" <;> simp [hid]

/-- Stringifying the id cannot create a field that was absent. -/
theorem get_stringifyId_none (d : Doc) (k : String) (h : d.get k = none) :
    (stringifyId d).get k = none := by
  induction d with
  | nil => rfl
  | cons kv rest ih =>
    obtain ⟨k', v⟩ := kv
    by_cases hk : k' = k
    · rw [Doc.get, if_pos hk] at h
      exact absurd h (by simp)
    · rw [Doc.get, if_neg hk] at h
      rw [stringifyId_cons, Doc.get, if_neg hk]
      exact ih h

/-- A signup route either leaves the store exactly as it was, or appends
exactly one document carrying the endpoint's role literal and no
password_hash field. -/
theorem signup_route_store_shape (emailValid : String → Bool)
    (hashPw : String → String) (st : Store) (p : SignupPayload) :
    (signup_route emailValid hashPw st p).store = st ∨
      ∃ d, (signup_route emailValid hashPw st p).store.docs = st.docs ++ [d] ∧
        d.get "password_hash" = none ∧
        d.get "user_type" = some (.str p.roleLiteral) := by
  by_cases hv : validPayload emailValid p = true
  · have hroute : signup_route emailValid hashPw st p = signup_handler hashPw st p := by
      simp [signup_route, hv]
    rw [hroute]
    cases p with
    | admin u =>
      rcases admin_signup_shape hashPw st u with ⟨hst, _⟩ | ⟨d, h1, _, _, _, h5, h6, _, _⟩
      · exact .inl hst
      · exact .inr ⟨d, h1, h5, h6⟩
    | student u =>
      rcases student_signup_shape hashPw st u with ⟨hst, _⟩ | ⟨d, h1, _, _, _, h5, h6, _, _⟩
      · exact .inl hst
      · exact .inr ⟨d, h1, h5, h6⟩
    | schoolCollege u =>
      rcases school_college_signup_shape hashPw st u with
        ⟨hst, _⟩ | ⟨d, h1, _, _, _, h5, h6, _, _⟩
      · exact .inl hst
      · exact .inr ⟨d, h1, h5, h6⟩
    | promoter u =>
      rcases promoter_signup_shape hashPw st u with ⟨hst, _⟩ | ⟨d, h1, _, _, _, h5, h6, _, _⟩
      · exact .inl hst
      · exact .inr ⟨d, h1, h5, h6⟩
  · left
    simp [signup_route, hv]

/-- No document this system ever stores carries a password_hash field (the
hash is stored under the key password). -/
theorem reachable_no_password_hash {st : Store} (h : Reachable st) :
    ∀ d ∈ st.docs, d.get "password_hash" = none := by
  induction h with
  | empty n => intro d hd; exact absurd hd (by simp)
  | step ev hp p hst ih =>
    rcases signup_route_store_shape ev hp _ p with heq | ⟨d, hdocs, hnone, _⟩
    · rw [heq]; exact ih
    · intro x hx
      rw [hdocs] at hx
      rcases List.mem_append.mp hx with h1 | h1
      · exact ih x h1
      · rw [List.mem_singleton] at h1
        subst h1
        exact hnone

/-- C7: the listing endpoint returns one record per stored document (all
of them), never with a password field; and on every store this system can
produce, never with a password_hash field either. -/
theorem C7_get_all_users (st : Store) :
    (get_all_users st).total_users = st.docs.length ∧
    (get_all_users st).users.length = st.docs.length ∧
    (∀ u ∈ (get_all_users st).users, u.get "password" = none) ∧
    (Reachable st → ∀ u ∈ (get_all_users st).users, u.get "password_hash" = none) := by
  refine ⟨by simp [get_all_users], by simp [get_all_users], ?_, ?_⟩
  · intro u hu
    simp only [get_all_users, List.mem_map] at hu
    obtain ⟨d, _, rfl⟩ := hu
    exact get_stringifyId_none _ _ (get_excludePassword d)
  · intro hR u hu
    simp only [get_all_users, List.mem_map] at hu
    obtain ⟨d, hd, rfl⟩ := hu
    exact get_stringifyId_none _ _
      (get_filter_none d _ _ (reachable_no_password_hash hR d hd))

/-- Witness for C7 on the store produced by the admin fixture signup. -/
theorem C7_get_all_users_witness :
    ∀ u ∈ (get_all_users wRun1.store).users, u.get "password_hash" = none :=
  (C7_get_all_users wRun1.store).2.2.2
    (Reachable.step wEmailOk wHash (.admin wAdmin) (Reachable.empty 0))

/-- C9 (amended): a signup route never rewrites existing records (they
survive unchanged, in place), and any record it appends carries the
endpoint's fixed user_type literal, one of admin, student, school/college
(spelled with a slash in the source), promoter. -/
theorem C9_role_literals (emailValid : String → Bool) (hashPw : String → String)
    (st : Store) (p : SignupPayload) :
    (signup_route emailValid hashPw st p).store.docs.take st.docs.length = st.docs ∧
    (∀ d ∈ (signup_route emailValid hashPw st p).store.docs.drop st.docs.length,
      d.get "user_type" = some (.str p.roleLiteral)) ∧
    p.roleLiteral ∈ ["admin", "student", "school/college", "promoter"] := by
  have hshape := signup_route_store_shape emailValid hashPw st p
  refine ⟨?_, ?_, by cases p <;> simp [SignupPayload.roleLiteral]⟩
  · rcases hshape with heq | ⟨d, hdocs, _, _⟩
    · rw [heq]; exact List.take_length _
    · rw [hdocs]; exact List.take_left _ _
  · rcases hshape with heq | ⟨d, hdocs, _, htype⟩
    · rw [heq]
      simp [List.drop_length]
    · rw [hdocs, List.drop_left]
      intro x hx
      rw [List.mem_singleton] at hx
      subst hx
      exact htype

/-- Witness for C9 on the admin fixture signup from the empty store. -/
theorem C9_role_literals_witness :
    (signup_route wEmailOk wHash emptyStore (.admin wAdmin)).store.docs.take
        emptyStore.docs.length = emptyStore.docs ∧
    (∀ d ∈ (signup_route wEmailOk wHash emptyStore (.admin wAdmin)).store.docs.drop
        emptyStore.docs.length,
      d.get "user_type" = some (.str (SignupPayload.admin wAdmin).roleLiteral)) ∧
    (SignupPayload.admin wAdmin).roleLiteral ∈
      ["admin", "student", "school/college", "promoter"] :=
  C9_role_literals wEmailOk wHash emptyStore (.admin wAdmin)

/-- C9 counterexample to the spelled literal: the institution endpoint
stores the user_type "school/college", which is none of the four literals
the claim lists (it writes school_college). -/
theorem C9_literal_counterexample :
    (signup_route wEmailOk wHash emptyStore (.schoolCollege wSchool)).store.docs.map
        (fun d => d.get "user_type") = [some (.str "school/college")] ∧
    ("school/college" : String) ∉ ["admin", "student", "school_college", "promoter"] := by
  refine ⟨by decide, by decide⟩

/-- C10: every document a signup endpoint inserts keeps the credential
hash under the key password, has no password_hash key, carries the email,
the fixed user_type and is_active true, and carries the optional student
phone / institution head_of_institute key exactly when the caller supplied
a value. -/
theorem C10_stored_document_shape (emailValid : String → Bool)
    (hashPw : String → String) (st : Store) (p : SignupPayload)
    (resp : UserResponse)
    (hok : (signup_route emailValid hashPw st p).result = .ok resp) :
    ∃ d, (signup_route emailValid hashPw st p).store.docs = st.docs ++ [d] ∧
      d.get "password" = some (.str (hashPw p.password)) ∧
      d.get "password_hash" = none ∧
      d.get "email" = some (.str p.email) ∧
      d.get "user_type" = some (.str p.roleLiteral) ∧
      d.get "is_active" = some (.boolean true) ∧
      (∀ u, p = .student u → d.get "phone" = Option.map Value.str u.phone) ∧
      (∀ u, p = .schoolCollege u →
        d.get "head_of_institute" = Option.map Value.str u.head_of_institute) := by
  by_cases hv : validPayload emailValid p = true
  · have hroute : signup_route emailValid hashPw st p = signup_handler hashPw st p := by
      simp [signup_route, hv]
    rw [hroute] at hok ⊢
    obtain ⟨d, h1, hem, hpw, hph, hty, hact, hstu, hsch⟩ :=
      signup_handler_ok_shape hashPw st p resp hok
    exact ⟨d, h1, hpw, hph, hem, hty, hact, hstu, hsch⟩
  · exfalso
    have hres : (signup_route emailValid hashPw st p).result = .error .validationErr := by
      simp [signup_route, hv]
    rw [hres] at hok
    exact Except.noConfusion hok

/-- Witness for C10 on the admin fixture signup from the empty store. -/
theorem C10_stored_document_shape_witness :
    ∃ d, (signup_route wEmailOk wHash emptyStore (.admin wAdmin)).store.docs =
        emptyStore.docs ++ [d] ∧
      d.get "password" = some (.str (wHash wAdmin.password)) ∧
      d.get "password_hash" = none ∧
      d.get "email" = some (.str wAdmin.email) ∧
      d.get "user_type" = some (.str (SignupPayload.admin wAdmin).roleLiteral) ∧
      d.get "is_active" = some (.boolean true) ∧
      (∀ u, SignupPayload.admin wAdmin = .student u →
        d.get "phone" = Option.map Value.str u.phone) ∧
      (∀ u, SignupPayload.admin wAdmin = .schoolCollege u →
        d.get "head_of_institute" = Option.map Value.str u.head_of_institute) :=
  C10_stored_document_shape wEmailOk wHash emptyStore (.admin wAdmin)
    { id := "0", email := "admin@example.com", user_type := "admin",
      message := "Admin registered successfully!" } (by decide)

/-- Eight hex digits per 32-bit word. -/
theorem wordHex_length (x : Nat) : (wordHex x).length = 8 := rfl

/-- Every nibble maps to one of the sixteen hex digits. -/
theorem hexDigitChar_mem (m : Nat) (h : m < 16) : hexDigitChar m ∈ hexChars := by
  have hall : ∀ n < 16, hexDigitChar n ∈ hexChars := by decide
  exact hall m h

/-- Every character a word prints is a hex digit. -/
theorem wordHex_chars (x : Nat) : ∀ c ∈ (wordHex x).data, c ∈ hexChars := by
  intro c hc
  simp only [wordHex, String.data, List.mem_cons, List.not_mem_nil, or_false] at hc
  rcases hc with h | h | h | h | h | h | h | h <;>
    (subst h; exact hexDigitChar_mem _ (Nat.mod_lt _ (by norm_num)))

/-- The SHA-256 hexdigest always prints 64 characters. -/
theorem sha256hex_length (s : String) : (sha256hex s).length = 64 := by
  simp [sha256hex, String.length_append, wordHex_length]

/-- The SHA-256 hexdigest prints hex digits only. -/
theorem sha256hex_chars (s : String) : ∀ c ∈ (sha256hex s).data, c ∈ hexChars := by
  intro c hc
  simp only [sha256hex, String.data_append, List.mem_append] at hc
  rcases hc with ((((((h | h) | h) | h) | h) | h) | h) | h <;> exact wordHex_chars _ c h

/-- C6: hash_password is bcrypt applied to the SHA-256 hexdigest of the
password's UTF-8 bytes — a fixed-length (64 hex characters, 256 bits)
hexadecimal string; with the fresh per-call salts bcrypt draws, hashing
the same plaintext twice gives two different outputs, and both verify
against that plaintext (bcrypt itself is the external passlib primitive,
assumed to embed its salt in its output and to verify its own hashes). -/
theorem C6_hash_password (σ : Type) (bcryptHash : String → σ → String)
    (bcryptVerify : String → String → Bool) (pw : String) (s1 s2 : σ)
    (hfresh : s1 ≠ s2)
    (hinj : ∀ dg t1 t2, t1 ≠ t2 → bcryptHash dg t1 ≠ bcryptHash dg t2)
    (hround : ∀ dg t, bcryptVerify dg (bcryptHash dg t) = true) :
    hash_password bcryptHash s1 pw = bcryptHash (sha256hex pw) s1 ∧
    (sha256hex pw).length = 64 ∧
    (∀ c ∈ (sha256hex pw).data, c ∈ hexChars) ∧
    hash_password bcryptHash s1 pw ≠ hash_password bcryptHash s2 pw ∧
    verify_password bcryptVerify pw (hash_password bcryptHash s1 pw) = true ∧
    verify_password bcryptVerify pw (hash_password bcryptHash s2 pw) = true :=
  ⟨rfl, sha256hex_length pw, sha256hex_chars pw,
   hinj (sha256hex pw) s1 s2 hfresh,
   hround (sha256hex pw) s1, hround (sha256hex pw) s2⟩

/-- Witness for C6 with a concrete salt-prepending bcrypt stand-in. -/
theorem C6_hash_password_witness :
    hash_password (fun dg (t : Char) => ⟨t :: dg.data⟩) 'A' "password1" ≠
      hash_password (fun dg (t : Char) => ⟨t :: dg.data⟩) 'B' "password1" ∧
    verify_password (fun _ _ => true) "password1"
      (hash_password (fun dg (t : Char) => ⟨t :: dg.data⟩) 'A' "password1") = true := by
  have h := C6_hash_password Char (fun dg t => ⟨t :: dg.data⟩) (fun _ _ => true)
    "password1" 'A' 'B' (by decide)
    (fun dg t1 t2 hne hh => absurd (List.cons.inj (congrArg String.data hh)).1 hne)
    (fun _ _ => rfl)
  exact ⟨h.2.2.2.1, h.2.2.2.2.1⟩

end ITVE
